import Mathlib

/-!
Verification of the StadyPlanManager server core: a shallow embedding of the
Express route handlers in `server.js` and the router variants in
`routes/api.js` (bearer/legacy variant and cookie variant), together with
proofs of the specified properties.

Modelling conventions:
* JSON values are the inductive `Json`; machine-level serialisation
  (`JSON.stringify` vs passing the object to the `pg` driver) is identified,
  since both store the same JSON value in the `JSONB` column.
* The PostgreSQL tables `users`, `device_registrations` and `progress` are
  association lists inside a `DB` record; the SERIAL id is `nextUserId`.
* `bcrypt.hash`/`bcrypt.compare` are external-library calls; they are
  modelled by an injective stand-in `bhash` and its matching `bcompare` on
  present (string) passwords.  `bcrypt.compare(undefined, hash)` rejects
  ("data and hash arguments required"), so a login request with a missing
  password that reaches the compare is an error path: the handlers' catch
  answers the 500 server-error response, and the embeddings branch on the
  optional password before calling `bcompare`.
* `jwt.sign` is modelled by the stand-in `signToken`; `jwt.verify` inside the
  middleware is an abstract parameter `verify : String → Option Identity`.
* A JavaScript request-body field is `Option String`; `truthy` models the
  `!field` check (absent and empty string are falsy).
* Storage faults (a query throwing a non-constraint error) and the
  concurrent-transaction uniqueness violation on the `device_registrations`
  insert are injected through a `RegEnv` record; `noFaults` is the ordinary
  sequential execution.
-/

mutual
inductive Json where
  | null
  | bool (b : Bool)
  | num (n : Int)
  | str (s : String)
  | arr (xs : JsonList)
  | obj (fields : JsonObj)
deriving DecidableEq

inductive JsonList where
  | nil
  | cons (hd : Json) (tl : JsonList)
deriving DecidableEq

inductive JsonObj where
  | nil
  | cons (key : String) (val : Json) (tl : JsonObj)
deriving DecidableEq
end

/-- A row of the `users` table (`id SERIAL, username UNIQUE, password`). -/
structure User where
  id : Nat
  username : String
  password : String
deriving DecidableEq

/-- A row of the `device_registrations` table (`device_id UNIQUE, user_id`). -/
structure DeviceReg where
  deviceId : String
  userId : Nat
deriving DecidableEq

/-- The persistent store: the three tables plus the users SERIAL counter.
The `progress` table maps `user_id` (primary key) to its JSONB `data`. -/
structure DB where
  users : List User
  deviceRegs : List DeviceReg
  progress : List (Nat × Json)
  nextUserId : Nat
deriving DecidableEq

def emptyDB : DB := ⟨[], [], [], 1⟩

/-- Stand-in for `bcrypt.hash(password, 10)` (external library, injective). -/
def bhash (password : String) : String := "bcrypt$" ++ password

/-- Stand-in for `bcrypt.compare` on a present (string) password.  A missing
password never reaches this function: `bcrypt.compare` rejects on a
non-string argument and the caller's catch answers 500 instead. -/
def bcompare (password : String) (stored : String) : Bool :=
  stored == bhash password

/-- Stand-in for `jwt.sign({id, username}, JWT_SECRET, {expiresIn: '7d'})`. -/
def signToken (id : Nat) (username : String) : String :=
  "jwt." ++ toString id ++ "." ++ username

/-- JavaScript truthiness of an optional string body field (`!field`):
absent and empty string are falsy. -/
def truthy : Option String → Bool
  | none => false
  | some s => !s.isEmpty

/-- An HTTP JSON response: status code and JSON body. -/
structure Res where
  status : Nat
  body : Json
deriving DecidableEq

/-- Body `{error: msg}` used by the JSON error responses. -/
def errBody (msg : String) : Json :=
  Json.obj (JsonObj.cons "error" (Json.str msg) JsonObj.nil)

def resp400Register : Res := ⟨400, errBody "ユーザー名、パスワード、デバイスIDは必須です。"⟩
def resp403Device : Res := ⟨403, errBody "このデバイスからはすでにアカウントが登録されています。"⟩
def resp409Username : Res := ⟨409, errBody "このユーザー名はすでに存在します。"⟩
def resp500 : Res := ⟨500, errBody "サーバーエラーが発生しました。"⟩

/-- The default progress document inserted at registration (all variants):
`{settings: {theme: 'light'}, lectures: {}}`. -/
def defaultProgress : Json :=
  Json.obj (JsonObj.cons "settings"
    (Json.obj (JsonObj.cons "theme" (Json.str "light") JsonObj.nil))
    (JsonObj.cons "lectures" (Json.obj JsonObj.nil) JsonObj.nil))

/-- The default progress document auto-created by the cookie variant
`GET /progress`: `{settings: {theme: 'light', currentWeekIndex: 0}, lectures: {}}`. -/
def defaultProgressWeek : Json :=
  Json.obj (JsonObj.cons "settings"
    (Json.obj (JsonObj.cons "theme" (Json.str "light")
      (JsonObj.cons "currentWeekIndex" (Json.num 0) JsonObj.nil)))
    (JsonObj.cons "lectures" (Json.obj JsonObj.nil) JsonObj.nil))

/-- The `SELECT * FROM device_registrations WHERE device_id = $1` row-count check. -/
def hasDevice (db : DB) (d : String) : Bool :=
  db.deviceRegs.any (fun reg => reg.deviceId == d)

/-- Whether the `users` UNIQUE(username) constraint would fire on insert. -/
def hasUser (db : DB) (u : String) : Bool :=
  db.users.any (fun usr => usr.username == u)

/-- The request body of `POST /api/register`. -/
structure RegisterReq where
  username : Option String
  password : Option String
  deviceId : Option String
deriving DecidableEq

/-- Outcomes of the individual queries of the registration transaction:
`*Fail` injects a non-constraint storage error (the query throws), and
`deviceInsertConflict` injects the error `23505` raised by the
`device_registrations` UNIQUE constraint when a concurrent transaction
committed the same device id between the row-count check and the insert. -/
structure RegEnv where
  beginFail : Bool
  deviceCheckFail : Bool
  userInsertFail : Bool
  deviceInsertConflict : Bool
  deviceInsertFail : Bool
  progressInsertFail : Bool
  commitFail : Bool
deriving DecidableEq

/-- Ordinary sequential execution: every query succeeds. -/
def noFaults : RegEnv := ⟨false, false, false, false, false, false, false⟩

/-- The transactional part of `POST /api/register` (source order):
`BEGIN`; device row-count check (rowCount > 0 → `ROLLBACK` + 403);
`INSERT INTO users` (duplicate username raises `23505`, caught as 409);
`INSERT INTO device_registrations` (a raised `23505` is also caught by the
same `error.code === '23505'` test and answered 409); `INSERT INTO progress`
with the default document; `COMMIT`.  Any thrown error rolls the transaction
back (state unchanged) and is mapped by the outer catch to 409 on code
`23505` and to 500 otherwise. -/
def registerCore (env : RegEnv) (db : DB) (u p d : String) : Res × DB :=
  if env.beginFail || env.deviceCheckFail then (resp500, db)
  else if hasDevice db d then (resp403Device, db)
  else if hasUser db u then (resp409Username, db)
  else if env.userInsertFail then (resp500, db)
  else if env.deviceInsertConflict then (resp409Username, db)
  else if env.deviceInsertFail then (resp500, db)
  else if env.progressInsertFail then (resp500, db)
  else if env.commitFail then (resp500, db)
  else
    ({ status := 201,
       body := Json.obj (JsonObj.cons "id" (Json.num db.nextUserId)
         (JsonObj.cons "username" (Json.str u) JsonObj.nil)) },
     { users := ⟨db.nextUserId, u, bhash p⟩ :: db.users,
       deviceRegs := ⟨d, db.nextUserId⟩ :: db.deviceRegs,
       progress := (db.nextUserId, defaultProgress) :: db.progress,
       nextUserId := db.nextUserId + 1 })

/-- Route `POST /api/register` (`server.js`; identical control flow in both router
variants): missing/empty `username`, `password` or `deviceId` → 400 before
anything touches the store; otherwise the password is hashed and the
transaction runs. -/
def register (env : RegEnv) (db : DB) (r : RegisterReq) : Res × DB :=
  if truthy r.username && truthy r.password && truthy r.deviceId then
    registerCore env db (r.username.getD "") (r.password.getD "") (r.deviceId.getD "")
  else (resp400Register, db)

/-- The query `SELECT * FROM users WHERE username = $1`.  A missing body field binds
an SQL NULL, which matches no row (`username` is NOT NULL). -/
def findByUsername (db : DB) (username : Option String) : Option User :=
  match username with
  | none => none
  | some s => db.users.find? (fun usr => usr.username == s)

def respUserNotFound : Res := ⟨400, errBody "ユーザーが見つかりません。"⟩
def respWrongPassword : Res := ⟨401, errBody "パスワードが正しくありません。"⟩

/-- Route `POST /api/login` in `server.js` (legacy bearer variant): no row → 400
"user not found"; a missing password on an existing user makes
`bcrypt.compare(undefined, hash)` reject, which the outer catch answers with
500; a present password failing the compare → 401 "wrong password"; success
→ 200 with a signed token.  The handler performs no read or write of the
store beyond the username lookup, so it returns only the response. -/
def loginLegacy (db : DB) (username password : Option String) : Res :=
  match findByUsername db username with
  | none => respUserNotFound
  | some user =>
    match password with
    | none => resp500
    | some p =>
      if bcompare p user.password then
        ⟨200, Json.obj (JsonObj.cons "accessToken"
          (Json.str (signToken user.id user.username)) JsonObj.nil)⟩
      else respWrongPassword

/-- The response surface of the cookie-variant `POST /login` in
`routes/api.js`: either a redirect to `/app` carrying the http-only
`accessToken` cookie, or a plain-text error sent with `res.status(s).send`. -/
inductive CookieRes where
  | redirect (path : String) (cookieToken : String)
  | err (status : Nat) (body : String)
deriving DecidableEq

def invalidCredMsg : String := "ユーザー名またはパスワードが正しくありません。"

def serverErrMsg : String := "サーバーエラーが発生しました。"

/-- Route `POST /login` in `routes/api.js` (cookie variant): no row → 401 generic
message; a missing password on an existing user makes `bcrypt.compare`
reject, which the catch answers with a plain-text 500; a present password
failing the compare → 401 with the same generic message; success → cookie +
redirect to `/app`. -/
def loginCookie (db : DB) (username password : Option String) : CookieRes :=
  match findByUsername db username with
  | none => CookieRes.err 401 invalidCredMsg
  | some user =>
    match password with
    | none => CookieRes.err 500 serverErrMsg
    | some p =>
      if bcompare p user.password then
        CookieRes.redirect "/app" (signToken user.id user.username)
      else CookieRes.err 401 invalidCredMsg

/-- The upsert `INSERT INTO progress (user_id, data) VALUES ($1,$2)
ON CONFLICT (user_id) DO UPDATE SET data = $2` — the upsert used by
`POST /progress`.  (The `updated_at` refresh is wall-clock time and is kept
out of the state.) -/
def upsertList (l : List (Nat × Json)) (uid : Nat) (d : Json) : List (Nat × Json) :=
  if l.any (fun p => p.1 == uid) then
    l.map (fun p => if p.1 == uid then (uid, d) else p)
  else (uid, d) :: l

def putProgress (db : DB) (uid : Nat) (d : Json) : DB :=
  { db with progress := upsertList db.progress uid d }

/-- Route `GET /api/progress` in `server.js` (legacy variant): returns the stored
`data` row if present, otherwise answers with the default document WITHOUT
inserting anything. -/
def getProgressLegacy (db : DB) (uid : Nat) : Res × DB :=
  match db.progress.find? (fun p => p.1 == uid) with
  | some p => (⟨200, p.2⟩, db)
  | none => (⟨200, defaultProgress⟩, db)

/-- Route `GET /progress` in `routes/api.js` (cookie variant): returns the stored
row if present; otherwise inserts the default document (with
`currentWeekIndex: 0`) and returns it. -/
def getProgressCookie (db : DB) (uid : Nat) : Res × DB :=
  match db.progress.find? (fun p => p.1 == uid) with
  | some p => (⟨200, p.2⟩, db)
  | none =>
    (⟨200, defaultProgressWeek⟩,
     { db with progress := (uid, defaultProgressWeek) :: db.progress })

def respNoData : Res := ⟨400, errBody "保存するデータがありません。"⟩

def respSaved : Res :=
  ⟨200, Json.obj (JsonObj.cons "success" (Json.bool true)
    (JsonObj.cons "message" (Json.str "進捗が保存されました。") JsonObj.nil))⟩

/-- Route `POST /api/progress` (identical in all variants): a falsy parsed body →
400 without touching the store; otherwise upsert and 200 `{success:true}`. -/
def postProgress (db : DB) (uid : Nat) (body : Option Json) : Res × DB :=
  match body with
  | none => (respNoData, db)
  | some d => (respSaved, putProgress db uid d)

/-- The JWT payload `{id, username}` attached to `req.user`. -/
structure Identity where
  id : Nat
  username : String
deriving DecidableEq

/-- Outcome of the `authenticateToken` middleware: short-circuit with
`res.sendStatus(status)`, or proceed into the route handler with `req.user`. -/
inductive AuthResult where
  | reject (status : Nat)
  | proceed (user : Identity)
deriving DecidableEq

/-- Character-level model of the JavaScript `split(' ')` (split on every
single space, keeping empty pieces). -/
def jsSplitSpaceAux : List Char → List Char → List (List Char)
  | [], acc => [acc.reverse]
  | c :: rest, acc =>
    if c = ' ' then acc.reverse :: jsSplitSpaceAux rest []
    else jsSplitSpaceAux rest (c :: acc)

def jsSplitSpace (s : String) : List String :=
  (jsSplitSpaceAux s.data []).map (fun cs => String.mk cs)

/-- The expression `const token = authHeader && authHeader.split(' ')[1]` followed by the
`token == null` test.  An absent header, or a header without a second
space-separated part, yields no token; the JavaScript corner case of an
empty-string header yields the (unverifiable) empty token. -/
def extractToken : Option String → Option String
  | none => none
  | some h => if h = "" then some "" else (jsSplitSpace h)[1]?

/-- The `authenticateToken` middleware of `server.js`: no token → 401;
`jwt.verify` failure (bad signature or expired) → 403; otherwise attach the
payload and continue. -/
def authenticateToken (verify : String → Option Identity)
    (authHeader : Option String) : AuthResult :=
  match extractToken authHeader with
  | none => AuthResult.reject 401
  | some t =>
    match verify t with
    | none => AuthResult.reject 403
    | some user => AuthResult.proceed user

/-- A protected route: the middleware runs first and only on success does the
request reach the handler. -/
def runProtected (verify : String → Option Identity) (authHeader : Option String)
    (handler : Identity → DB → Res × DB) (db : DB) : Res × DB :=
  match authenticateToken verify authHeader with
  | AuthResult.reject s => (⟨s, Json.null⟩, db)
  | AuthResult.proceed user => handler user db

/-- One API operation of the legacy server, for whole-trace statements. -/
inductive Op where
  | reg (r : RegisterReq)
  | login (username password : Option String)
  | getPLegacy (uid : Nat)
  | getPCookie (uid : Nat)
  | postP (uid : Nat) (body : Option Json)

/-- Execute one operation against the store. -/
def stepOp (db : DB) : Op → Res × DB
  | Op.reg r => register noFaults db r
  | Op.login u p => (loginLegacy db u p, db)
  | Op.getPLegacy uid => getProgressLegacy db uid
  | Op.getPCookie uid => getProgressCookie db uid
  | Op.postP uid b => postProgress db uid b

/-- Execute a list of operations, collecting the responses. -/
def runOps (db : DB) : List Op → List Res × DB
  | [] => ([], db)
  | op :: ops =>
    let s := stepOp db op
    let rest := runOps s.2 ops
    (s.1 :: rest.1, rest.2)

section Lemmas

/-- Updating every row keyed `uid` leaves key membership unchanged. -/
lemma any_map_upd (l : List (Nat × Json)) (uid : Nat) (d : Json) :
    (l.map (fun p => if p.1 == uid then (uid, d) else p)).any (fun p => p.1 == uid)
      = l.any (fun p => p.1 == uid) := by
  induction l with
  | nil => rfl
  | cons p l ih =>
    by_cases hp : (p.1 == uid) = true
    · have hupd : (if p.1 == uid then (uid, d) else p) = (uid, d) := if_pos hp
      simp only [List.map_cons, List.any_cons, hupd, ih]
      rw [hp, beq_self_eq_true]
    · have hupd : (if p.1 == uid then (uid, d) else p) = p := if_neg hp
      simp only [List.map_cons, List.any_cons, hupd, ih]

/-- If no row is keyed `uid`, the update map is the identity. -/
lemma map_upd_id (l : List (Nat × Json)) (uid : Nat) (d : Json)
    (h : l.any (fun p => p.1 == uid) = false) :
    l.map (fun p => if p.1 == uid then (uid, d) else p) = l := by
  induction l with
  | nil => rfl
  | cons p l ih =>
    simp only [List.any_cons, Bool.or_eq_false_iff] at h
    have hupd : (if p.1 == uid then (uid, d) else p) = p := if_neg (by simp [h.1])
    simp only [List.map_cons, hupd, ih h.2]

/-- Updating twice with the same document is the same as updating once. -/
lemma map_upd_idem (l : List (Nat × Json)) (uid : Nat) (d : Json) :
    ((l.map (fun p => if p.1 == uid then (uid, d) else p)).map
        (fun p => if p.1 == uid then (uid, d) else p))
      = l.map (fun p => if p.1 == uid then (uid, d) else p) := by
  induction l with
  | nil => rfl
  | cons p l ih =>
    by_cases hp : (p.1 == uid) = true
    · have hupd : (if p.1 == uid then (uid, d) else p) = (uid, d) := if_pos hp
      have hfix : (if (uid, d).1 == uid then (uid, d) else (uid, d)) = ((uid : Nat), d) :=
        if_pos (beq_self_eq_true uid)
      simp only [List.map_cons, hupd, hfix, ih]
    · have hupd : (if p.1 == uid then (uid, d) else p) = p := if_neg hp
      simp only [List.map_cons, hupd, ih]

/-- After an update of the rows keyed `uid`, the lookup finds `(uid, d)`. -/
lemma find_map_upd (l : List (Nat × Json)) (uid : Nat) (d : Json)
    (h : l.any (fun p => p.1 == uid) = true) :
    (l.map (fun p => if p.1 == uid then (uid, d) else p)).find? (fun p => p.1 == uid)
      = some (uid, d) := by
  induction l with
  | nil => simp at h
  | cons p l ih =>
    by_cases hp : (p.1 == uid) = true
    · have hupd : (if p.1 == uid then (uid, d) else p) = (uid, d) := if_pos hp
      rw [List.map_cons, hupd]
      exact List.find?_cons_of_pos _ (beq_self_eq_true uid)
    · simp only [List.any_cons, Bool.or_eq_true] at h
      have h2 : l.any (fun p => p.1 == uid) = true := h.resolve_left hp
      have hupd : (if p.1 == uid then (uid, d) else p) = p := if_neg hp
      rw [List.map_cons, hupd,
        @List.find?_cons_of_neg (Nat × Json) (fun q => q.1 == uid) p _ hp, ih h2]

/-- After an upsert, the lookup finds `(uid, d)`. -/
lemma upsertList_find (l : List (Nat × Json)) (uid : Nat) (d : Json) :
    (upsertList l uid d).find? (fun p => p.1 == uid) = some (uid, d) := by
  unfold upsertList
  by_cases h : l.any (fun p => p.1 == uid) = true
  · rw [if_pos h]
    exact find_map_upd l uid d h
  · rw [if_neg h]
    exact List.find?_cons_of_pos _ (beq_self_eq_true uid)

/-- Replaying the same upsert is a no-op. -/
lemma upsertList_idem (l : List (Nat × Json)) (uid : Nat) (d : Json) :
    upsertList (upsertList l uid d) uid d = upsertList l uid d := by
  unfold upsertList
  by_cases h : l.any (fun p => p.1 == uid) = true
  · rw [if_pos h, if_pos (by rw [any_map_upd]; exact h)]
    exact map_upd_idem l uid d
  · have hf : l.any (fun p => p.1 == uid) = false := by
      rw [← Bool.not_eq_true]; exact h
    rw [if_neg h]
    have h2 : (((uid, d) :: l).any (fun p => p.1 == uid)) = true := by simp
    rw [if_pos h2, List.map_cons]
    have hfix : (if (uid, d).1 == uid then (uid, d) else (uid, d)) = ((uid : Nat), d) :=
      if_pos (beq_self_eq_true uid)
    rw [hfix, map_upd_id l uid d hf]

/-- After `putProgress`, the progress row for `uid` is exactly `(uid, d)`. -/
lemma putProgress_find (db : DB) (uid : Nat) (d : Json) :
    (putProgress db uid d).progress.find? (fun p => p.1 == uid) = some (uid, d) :=
  upsertList_find db.progress uid d

/-- Replaying `putProgress` with the same document is a no-op. -/
lemma putProgress_idem (db : DB) (uid : Nat) (d : Json) :
    putProgress (putProgress db uid d) uid d = putProgress db uid d := by
  unfold putProgress
  congr 1
  exact upsertList_idem db.progress uid d

end Lemmas

/-- A 201 response means all three body fields were truthy. -/
lemma register_201_truthy (env : RegEnv) (db : DB) (r : RegisterReq)
    (h : (register env db r).1.status = 201) :
    truthy r.username = true ∧ truthy r.password = true ∧ truthy r.deviceId = true := by
  unfold register at h
  by_cases hg : (truthy r.username && truthy r.password && truthy r.deviceId) = true
  · simp only [Bool.and_eq_true] at hg
    exact ⟨hg.1.1, hg.1.2, hg.2⟩
  · rw [if_neg hg] at h
    simp [resp400Register] at h

/-- A 201 response leaves a device row for the request's device id. -/
lemma register_201_hasDevice (env : RegEnv) (db : DB) (r : RegisterReq) (d : String)
    (hd : r.deviceId = some d) (h : (register env db r).1.status = 201) :
    hasDevice (register env db r).2 d = true := by
  unfold register at h ⊢
  by_cases hg : (truthy r.username && truthy r.password && truthy r.deviceId) = true
  · rw [if_pos hg] at h ⊢
    unfold registerCore at h ⊢
    split_ifs at h ⊢ <;>
      first
        | (simp [resp500, resp403Device, resp409Username] at h; done)
        | simp [hasDevice, hd]
  · rw [if_neg hg] at h
    simp [resp400Register] at h

/-- Once a device row exists, a registration with that device id can never
answer 201, and a well-formed one answers exactly the device-conflict 403
leaving the store unchanged. -/
lemma register_device_blocked (db : DB) (r : RegisterReq) (d : String)
    (hd : r.deviceId = some d) (hdt : truthy r.deviceId = true)
    (hdev : hasDevice db d = true) :
    (register noFaults db r).1.status ≠ 201 ∧
    (truthy r.username = true → truthy r.password = true →
      register noFaults db r = (resp403Device, db)) := by
  unfold register
  by_cases hg : (truthy r.username && truthy r.password && truthy r.deviceId) = true
  · rw [if_pos hg]
    have hdd : hasDevice db (r.deviceId.getD "") = true := by rw [hd]; exact hdev
    unfold registerCore
    have hb : ¬ ((noFaults.beginFail || noFaults.deviceCheckFail) = true) := by
      simp [noFaults]
    rw [if_neg hb, if_pos hdd]
    exact ⟨by simp [resp403Device], fun _ _ => rfl⟩
  · rw [if_neg hg]
    refine ⟨by simp [resp400Register], fun hu hp => absurd (by simp [hu, hp, hdt]) hg⟩

/-- Registration can only add device rows, never remove them. -/
lemma hasDevice_register (env : RegEnv) (db : DB) (r : RegisterReq) (d : String)
    (h : hasDevice db d = true) :
    hasDevice (register env db r).2 d = true := by
  unfold register
  by_cases hg : (truthy r.username && truthy r.password && truthy r.deviceId) = true
  · rw [if_pos hg]
    unfold registerCore
    split_ifs <;> try exact h
    simp only [hasDevice, List.any_cons]
    simp only [hasDevice] at h
    rw [h, Bool.or_true]
  · rw [if_neg hg]
    exact h

/-- Legacy `GET /api/progress` never modifies the store. -/
lemma getProgressLegacy_db (db : DB) (uid : Nat) : (getProgressLegacy db uid).2 = db := by
  unfold getProgressLegacy
  cases db.progress.find? (fun p => p.1 == uid) <;> rfl

/-- The cookie `GET /progress` never touches the device table. -/
lemma getProgressCookie_deviceRegs (db : DB) (uid : Nat) :
    (getProgressCookie db uid).2.deviceRegs = db.deviceRegs := by
  unfold getProgressCookie
  cases db.progress.find? (fun p => p.1 == uid) <;> rfl

/-- No API operation ever removes a device row. -/
lemma hasDevice_stepOp (db : DB) (op : Op) (d : String) (h : hasDevice db d = true) :
    hasDevice (stepOp db op).2 d = true := by
  cases op with
  | reg r => exact hasDevice_register noFaults db r d h
  | login u p => exact h
  | getPLegacy uid =>
    show hasDevice (getProgressLegacy db uid).2 d = true
    rw [getProgressLegacy_db]
    exact h
  | getPCookie uid =>
    show hasDevice (getProgressCookie db uid).2 d = true
    unfold hasDevice
    rw [getProgressCookie_deviceRegs]
    exact h
  | postP uid b =>
    cases b <;> exact h

/-- Device rows persist across any sequence of API operations. -/
lemma hasDevice_runOps (ops : List Op) :
    ∀ (db : DB) (d : String), hasDevice db d = true →
      hasDevice (runOps db ops).2 d = true := by
  induction ops with
  | nil => intro db d h; exact h
  | cons op ops ih => intro db d h; exact ih _ _ (hasDevice_stepOp db op d h)

/-- The components of the parsed `new URL(raw)` used by the image proxy. -/
structure UrlParts where
  protocol : String
  hostname : String
deriving DecidableEq

/-- The allow-list of image hosts in `routes/api.js`. -/
def ALLOWED_IMAGE_HOSTS : List String :=
  ["pub-8e1f6da67eed4033b14228e6b9e1393c.r2.dev", "googleusercontent.com"]

/-- Character-level model of the JavaScript `String.prototype.endsWith`
used by the host check. -/
def strEndsWith (s post : String) : Bool :=
  post.data.isSuffixOf s.data

/-- A host is allowed when it equals an allow-listed host or is a subdomain
of one. -/
def isAllowedHost (hostname : String) : Bool :=
  ALLOWED_IMAGE_HOSTS.any (fun allowedHost =>
    hostname == allowedHost || strEndsWith hostname ("." ++ allowedHost))

/-- Outcome of one upstream `fetch` attempt: a 2xx response with content
type and bytes, a non-ok HTTP status, or a thrown network error. -/
inductive FetchOutcome where
  | ok (contentType : Option String) (body : List Nat)
  | errStatus (status : Nat) (body : String)
  | exc (msg : String)
deriving DecidableEq

def FetchOutcome.isOk : FetchOutcome → Bool
  | FetchOutcome.ok _ _ => true
  | _ => false

/-- The body of an image-proxy response: proxied bytes, a plain-text error,
or the generated placeholder SVG (parameterised by the recorded last
upstream status interpolated into its text). -/
inductive ImgBody where
  | bytes (bs : List Nat)
  | text (s : String)
  | svgPlaceholder (lastStatus : Nat)
deriving DecidableEq

structure ImgRes where
  status : Nat
  contentType : Option String
  body : ImgBody
deriving DecidableEq

def svgContentType : String := "image/svg+xml; charset=utf-8"

/-- The trial loop of `GET /image`: try each header variation in order; the
first ok upstream response is streamed through with its content type; if
every attempt fails the placeholder SVG is answered with status 200.
`lastStatus` records the failed HTTP status (0 after a thrown fetch). -/
def runTrials (fetchTrial : Nat → FetchOutcome) : List Nat → Nat → ImgRes
  | [], lastStatus => ⟨200, some svgContentType, ImgBody.svgPlaceholder lastStatus⟩
  | i :: rest, _ =>
    match fetchTrial i with
    | FetchOutcome.ok ct body => ⟨200, some (ct.getD "application/octet-stream"), ImgBody.bytes body⟩
    | FetchOutcome.errStatus s _ => runTrials fetchTrial rest s
    | FetchOutcome.exc _ => runTrials fetchTrial rest 0

/-- Route `GET /image` in `routes/api.js`: 400 on a missing `url` parameter, an
unparseable URL, a non-https protocol or a host outside the allow-list;
otherwise the three upstream trials run.  `parse` abstracts `new URL` and
`fetchTrial i` the upstream fetch with the `i`-th header variation. -/
def imageHandler (parse : String → Option UrlParts) (fetchTrial : Nat → FetchOutcome)
    (raw : String) : ImgRes :=
  if raw.isEmpty then ⟨400, none, ImgBody.text "url パラメータが必要です"⟩
  else
    match parse raw with
    | none => ⟨400, none, ImgBody.text "無効なURL"⟩
    | some urlObj =>
      if urlObj.protocol != "https:" || !isAllowedHost urlObj.hostname then
        ⟨400, none, ImgBody.text ("許可されていないホストです: " ++ urlObj.hostname)⟩
      else runTrials fetchTrial [0, 1, 2] 0

/-- When no trial returns an ok upstream response, the loop falls through to
the 200 placeholder SVG. -/
lemma runTrials_all_fail (fetchTrial : Nat → FetchOutcome) (is : List Nat)
    (ls : Nat) (h : ∀ i, (fetchTrial i).isOk = false) :
    (runTrials fetchTrial is ls).status = 200 ∧
    (runTrials fetchTrial is ls).contentType = some svgContentType ∧
    ∃ l, (runTrials fetchTrial is ls).body = ImgBody.svgPlaceholder l := by
  induction is generalizing ls with
  | nil => exact ⟨rfl, rfl, ls, rfl⟩
  | cons i rest ih =>
    cases hf : fetchTrial i with
    | ok ct body =>
      have := h i
      rw [hf] at this
      simp [FetchOutcome.isOk] at this
    | errStatus s b =>
      have heq : runTrials fetchTrial (i :: rest) ls = runTrials fetchTrial rest s := by
        simp only [runTrials, hf]
      rw [heq]
      exact ih s
    | exc m =>
      have heq : runTrials fetchTrial (i :: rest) ls = runTrials fetchTrial rest 0 := by
        simp only [runTrials, hf]
      rw [heq]
      exact ih 0

/-- Every branch of the registration transaction either answers 201 or
leaves the store exactly as it was (`ROLLBACK`). -/
lemma registerCore_201_or_rollback (env : RegEnv) (db : DB) (u p d : String) :
    (registerCore env db u p d).1.status = 201 ∨ (registerCore env db u p d).2 = db := by
  unfold registerCore
  split_ifs <;> simp [resp500, resp403Device, resp409Username]

/-- A registration either answers 201 or leaves the store unchanged. -/
lemma register_201_or_rollback (env : RegEnv) (db : DB) (r : RegisterReq) :
    (register env db r).1.status = 201 ∨ (register env db r).2 = db := by
  unfold register
  by_cases hg : (truthy r.username && truthy r.password && truthy r.deviceId) = true
  · rw [if_pos hg]
    exact registerCore_201_or_rollback env db _ _ _
  · rw [if_neg hg]
    exact Or.inr rfl

/-- C2: for every registration request that does not return 201 — missing
field, device conflict, username conflict, or a storage failure at any step
(including the concurrent device-insert conflict and a commit failure) — the
store is exactly as before: no User, DeviceRegistration or Progress row
created by the request remains persisted; in particular a missing field
never creates a User row. -/
theorem c2_register_rollback (env : RegEnv) (db : DB) (r : RegisterReq)
    (h : (register env db r).1.status ≠ 201) :
    (register env db r).2 = db :=
  (register_201_or_rollback env db r).resolve_left h

/-- Witness for `c2_register_rollback`: a request missing its deviceId is
refused and the store is untouched. -/
theorem c2_register_rollback_witness :
    ((register noFaults emptyDB ⟨some "alice", some "pw", none⟩).1.status ≠ 201) ∧
    (register noFaults emptyDB ⟨some "alice", some "pw", none⟩).2 = emptyDB :=
  ⟨by decide, c2_register_rollback noFaults emptyDB ⟨some "alice", some "pw", none⟩ (by decide)⟩

/-- C1: once a registration with device id `d` has answered 201, any later
registration attempt presenting the same device id — after arbitrary
intervening API operations, with any username and password — is never
answered 201 again (so at most one registration per device id ever
succeeds), and if its username and password fields are present it is
answered exactly the 403 device-conflict error, leaving the store
unchanged. -/
theorem c1_device_unique (db : DB) (l2 : List Op) (ri rj : RegisterReq) (d : String)
    (h201 : (register noFaults db ri).1.status = 201)
    (hdi : ri.deviceId = some d) (hdj : rj.deviceId = some d) :
    (register noFaults (runOps (register noFaults db ri).2 l2).2 rj).1.status ≠ 201 ∧
    (truthy rj.username = true → truthy rj.password = true →
      register noFaults (runOps (register noFaults db ri).2 l2).2 rj =
        (resp403Device, (runOps (register noFaults db ri).2 l2).2)) := by
  have hdev1 : hasDevice (register noFaults db ri).2 d = true :=
    register_201_hasDevice noFaults db ri d hdi h201
  have hdev2 : hasDevice (runOps (register noFaults db ri).2 l2).2 d = true :=
    hasDevice_runOps l2 _ d hdev1
  have ht := register_201_truthy noFaults db ri h201
  have hdt : truthy rj.deviceId = true := by
    rw [hdj]
    rw [hdi] at ht
    exact ht.2.2
  exact register_device_blocked _ rj d hdj hdt hdev2

def reqA : RegisterReq := ⟨some "alice", some "pw1", some "dev1"⟩
def reqB : RegisterReq := ⟨some "bob", some "pw2", some "dev1"⟩

/-- Witness for `c1_device_unique`: after alice registers device `dev1`,
bob's attempt with the same device id gets the 403 device-conflict error. -/
theorem c1_device_unique_witness :
    (register noFaults emptyDB reqA).1.status = 201 ∧
    (register noFaults (runOps (register noFaults emptyDB reqA).2 []).2 reqB).1.status ≠ 201 ∧
    register noFaults (runOps (register noFaults emptyDB reqA).2 []).2 reqB =
      (resp403Device, (runOps (register noFaults emptyDB reqA).2 []).2) := by
  have h := c1_device_unique emptyDB [] reqA reqB "dev1" (by decide) (by decide) (by decide)
  exact ⟨by decide, h.1, h.2 (by decide) (by decide)⟩

/-- The environment in which the `device_registrations` insert raises the
uniqueness violation `23505` because a concurrent transaction committed the
same device id after the row-count check. -/
def envDeviceRace : RegEnv := ⟨false, false, false, true, false, false, false⟩

/-- C6 counterexample: when the `device_registrations` insert itself raises
a uniqueness violation, the catch-all `error.code === '23505'` branch
answers the 409 username-conflict error, NOT the 403 device-conflict error
the claim requires. -/
theorem c6_counterexample :
    (register envDeviceRace emptyDB ⟨some "alice", some "pw", some "dev1"⟩).1
        = resp409Username ∧
    (register envDeviceRace emptyDB ⟨some "alice", some "pw", some "dev1"⟩).1
        ≠ resp403Device := by
  decide

/-- C6 amended: the storage-layer uniqueness constraint does make the device
check race-safe in the sense that the losing registration deterministically
fails with its transaction rolled back — but the response it observes is the
409 username-conflict error (the handler maps every `23505` to it), not the
403 device-conflict error, which only the prior row-count check produces. -/
theorem c6_device_race_gets_409 (db : DB) (r : RegisterReq)
    (hu : truthy r.username = true) (hp : truthy r.password = true)
    (hd : truthy r.deviceId = true)
    (hnd : hasDevice db (r.deviceId.getD "") = false)
    (hnu : hasUser db (r.username.getD "") = false) :
    register envDeviceRace db r = (resp409Username, db) := by
  unfold register
  have h0 : (truthy r.username && truthy r.password && truthy r.deviceId) = true := by
    simp [hu, hp, hd]
  rw [if_pos h0]
  unfold registerCore
  have h1 : ¬ ((envDeviceRace.beginFail || envDeviceRace.deviceCheckFail) = true) := by
    simp [envDeviceRace]
  have h2 : ¬ (hasDevice db (r.deviceId.getD "") = true) := by simp [hnd]
  have h3 : ¬ (hasUser db (r.username.getD "") = true) := by simp [hnu]
  have h4 : ¬ (envDeviceRace.userInsertFail = true) := by simp [envDeviceRace]
  have h5 : envDeviceRace.deviceInsertConflict = true := by simp [envDeviceRace]
  rw [if_neg h1, if_neg h2, if_neg h3, if_neg h4, if_pos h5]

/-- Witness for `c6_device_race_gets_409`. -/
theorem c6_device_race_gets_409_witness :
    register envDeviceRace emptyDB ⟨some "carol", some "pw", some "dev9"⟩
      = (resp409Username, emptyDB) :=
  c6_device_race_gets_409 emptyDB ⟨some "carol", some "pw", some "dev9"⟩
    (by decide) (by decide) (by decide) (by decide) (by decide)

/-- A store with the single user alice (password hash of "correct"). -/
def dbAlice : DB := ⟨[⟨1, "alice", bhash "correct"⟩], [], [], 2⟩

/-- C3 counterexample: in the legacy `/api/login` of `server.js` a
nonexistent username gets the 400 user-not-found response while a wrong
password gets the 401 wrong-password response — different status and
different body, refuting the claim that the two cases are answered
identically. -/
theorem c3_counterexample :
    loginLegacy dbAlice (some "bob") (some "x") = respUserNotFound ∧
    loginLegacy dbAlice (some "alice") (some "wrong") = respWrongPassword ∧
    loginLegacy dbAlice (some "bob") (some "x")
      ≠ loginLegacy dbAlice (some "alice") (some "wrong") := by
  decide

/-- C3 amended: only the cookie-variant `POST /login` of `routes/api.js`
answers the identical generic 401 response for a nonexistent username (with
any password field) and for an existing username with a present but wrong
password; the legacy `/api/login` distinguishes the two cases (400
user-not-found vs 401 wrong-password). -/
theorem c3_cookie_indistinguishable (db : DB) (g u : String) (usr : User)
    (pg : Option String) (pu : String)
    (hg : db.users.find? (fun x => x.username == g) = none)
    (hu : db.users.find? (fun x => x.username == u) = some usr)
    (hpw : bcompare pu usr.password = false) :
    loginCookie db (some g) pg = CookieRes.err 401 invalidCredMsg ∧
    loginCookie db (some u) (some pu) = CookieRes.err 401 invalidCredMsg ∧
    loginCookie db (some g) pg = loginCookie db (some u) (some pu) := by
  have hfg : findByUsername db (some g) = none := hg
  have hfu : findByUsername db (some u) = some usr := hu
  have h1 : loginCookie db (some g) pg = CookieRes.err 401 invalidCredMsg := by
    unfold loginCookie
    rw [hfg]
  have h2 : loginCookie db (some u) (some pu) = CookieRes.err 401 invalidCredMsg := by
    unfold loginCookie
    rw [hfu]
    simp [hpw]
  exact ⟨h1, h2, h1.trans h2.symm⟩

/-- Witness for `c3_cookie_indistinguishable`. -/
theorem c3_cookie_indistinguishable_witness :
    loginCookie dbAlice (some "bob") (some "x") = CookieRes.err 401 invalidCredMsg ∧
    loginCookie dbAlice (some "alice") (some "wrong") = CookieRes.err 401 invalidCredMsg :=
  have h := c3_cookie_indistinguishable dbAlice "bob" "alice"
    ⟨1, "alice", bhash "correct"⟩ (some "x") "wrong"
    (by decide) (by decide) (by decide)
  ⟨h.1, h.2.1⟩

/-- C4 counterexample: for a user with no stored row, the cookie-variant
`GET /progress` stores and returns `{settings:{theme:'light',
currentWeekIndex:0},lectures:{}}`, which differs from the claimed document
`{settings:{theme:'light'},lectures:{}}`; and the legacy `GET /api/progress`
returns the claimed document but creates no row at all. -/
theorem c4_counterexample :
    (getProgressCookie emptyDB 1).1.body ≠ defaultProgress ∧
    (getProgressCookie emptyDB 1).2.progress = [(1, defaultProgressWeek)] ∧
    defaultProgressWeek ≠ defaultProgress ∧
    (getProgressLegacy emptyDB 1).1.body = defaultProgress ∧
    (getProgressLegacy emptyDB 1).2 = emptyDB := by
  decide

/-- C4 amended: for an authenticated user with no stored progress row, the
cookie-variant `GET /progress` inserts the default document
`{settings:{theme:'light',currentWeekIndex:0},lectures:{}}` and returns it
with 200, after which the row exists and a second GET returns the same
document without changing the store; the legacy `GET /api/progress` instead
answers `{settings:{theme:'light'},lectures:{}}` without creating any row. -/
theorem c4_cookie_autoinit (db : DB) (uid : Nat)
    (h : db.progress.find? (fun p => p.1 == uid) = none) :
    (getProgressCookie db uid).1 = ⟨200, defaultProgressWeek⟩ ∧
    (getProgressCookie db uid).2.progress.find? (fun p => p.1 == uid)
        = some (uid, defaultProgressWeek) ∧
    getProgressCookie (getProgressCookie db uid).2 uid
        = ((getProgressCookie db uid).1, (getProgressCookie db uid).2) ∧
    getProgressLegacy db uid = (⟨200, defaultProgress⟩, db) := by
  have hfind : ((uid, defaultProgressWeek) :: db.progress).find? (fun p => p.1 == uid)
      = some (uid, defaultProgressWeek) :=
    List.find?_cons_of_pos _ (beq_self_eq_true uid)
  unfold getProgressCookie getProgressLegacy
  rw [h]
  simp only [hfind]
  refine ⟨?_, ?_, ?_, ?_⟩ <;> trivial

/-- Witness for `c4_cookie_autoinit`. -/
theorem c4_cookie_autoinit_witness :
    (getProgressCookie emptyDB 1).1 = ⟨200, defaultProgressWeek⟩ ∧
    getProgressCookie (getProgressCookie emptyDB 1).2 1
      = ((getProgressCookie emptyDB 1).1, (getProgressCookie emptyDB 1).2) :=
  have h := c4_cookie_autoinit emptyDB 1 (by decide)
  ⟨h.1, h.2.2.1⟩

/-- C5: for every user and every JSON document `d`, an authenticated
`POST /progress` with `d` answers 200 `{success:true}`, a following
`GET /progress` (either variant) returns exactly `d` (structural JSON
equality), and replaying the identical POST returns the same response and
leaves the identical stored state. -/
theorem c5_roundtrip_idempotent (db : DB) (uid : Nat) (d : Json) :
    (postProgress db uid (some d)).1 = respSaved ∧
    (getProgressLegacy (postProgress db uid (some d)).2 uid).1 = ⟨200, d⟩ ∧
    (getProgressCookie (postProgress db uid (some d)).2 uid).1 = ⟨200, d⟩ ∧
    postProgress (postProgress db uid (some d)).2 uid (some d)
      = ((postProgress db uid (some d)).1, (postProgress db uid (some d)).2) := by
  have hfind := putProgress_find db uid d
  refine ⟨rfl, ?_, ?_, ?_⟩
  · show (getProgressLegacy (putProgress db uid d) uid).1 = ⟨200, d⟩
    unfold getProgressLegacy
    rw [hfind]
  · show (getProgressCookie (putProgress db uid d) uid).1 = ⟨200, d⟩
    unfold getProgressCookie
    rw [hfind]
  · show (respSaved, putProgress (putProgress db uid d) uid d)
        = (respSaved, putProgress db uid d)
    rw [putProgress_idem]

/-- C7: on a protected route, a request with no extractable token is
answered 401 and a request whose token fails verification (bad signature or
expired) is answered 403; in both cases the response is produced by the
Session Guard alone — the protected handler (universally quantified here) is
never reached and the store is untouched. -/
theorem c7_session_guard (verify : String → Option Identity)
    (authHeader : Option String) (handler : Identity → DB → Res × DB) (db : DB) :
    (extractToken authHeader = none →
      runProtected verify authHeader handler db = (⟨401, Json.null⟩, db)) ∧
    (∀ t, extractToken authHeader = some t → verify t = none →
      runProtected verify authHeader handler db = (⟨403, Json.null⟩, db)) := by
  constructor
  · intro h
    have hauth : authenticateToken verify authHeader = AuthResult.reject 401 := by
      unfold authenticateToken
      rw [h]
    unfold runProtected
    rw [hauth]
  · intro t ht hv
    have hauth : authenticateToken verify authHeader = AuthResult.reject 403 := by
      unfold authenticateToken
      rw [ht]
      show (match verify t with
            | none => AuthResult.reject 403
            | some user => AuthResult.proceed user) = AuthResult.reject 403
      rw [hv]
    unfold runProtected
    rw [hauth]

def verifyNone : String → Option Identity := fun _ => none

def handler200 : Identity → DB → Res × DB := fun _ db => (⟨200, Json.null⟩, db)

/-- Witness for `c7_session_guard`: an absent Authorization header is
answered 401, a present-but-unverifiable bearer token 403. -/
theorem c7_session_guard_witness :
    runProtected verifyNone none handler200 emptyDB = (⟨401, Json.null⟩, emptyDB) ∧
    runProtected verifyNone (some "Bearer abc") handler200 emptyDB
      = (⟨403, Json.null⟩, emptyDB) :=
  ⟨(c7_session_guard verifyNone none handler200 emptyDB).1 rfl,
   (c7_session_guard verifyNone (some "Bearer abc") handler200 emptyDB).2 "abc"
     (by decide) rfl⟩

/-- C8: an authenticated `POST /progress` whose parsed body is falsy is
answered 400 (`respNoData` has status 400) with the store untouched; any
present body is stored by the upsert and answered 200 `{success:true}`
(`respSaved` has status 200). -/
theorem c8_post_progress_empty_body (db : DB) (uid : Nat) :
    postProgress db uid none = (respNoData, db) ∧
    respNoData.status = 400 ∧
    respSaved.status = 200 ∧
    (∀ d : Json, (postProgress db uid (some d)).1 = respSaved ∧
      (postProgress db uid (some d)).2.progress.find? (fun p => p.1 == uid)
        = some (uid, d)) :=
  ⟨rfl, rfl, rfl, fun d => ⟨rfl, putProgress_find db uid d⟩⟩

/-- C9 counterexample: a login request for the existing user alice with a
missing password field is answered with the 500 server-error response —
`bcrypt.compare(undefined, hash)` rejects and the catch answers 500 — which
is neither the nonexistent-user response nor the wrong-password response, so
the request does not "fail with the same response as a nonexistent user or
wrong password". -/
theorem c9_counterexample :
    loginLegacy dbAlice (some "alice") none = resp500 ∧
    loginLegacy dbAlice (some "alice") none ≠ respUserNotFound ∧
    loginLegacy dbAlice (some "alice") none ≠ respWrongPassword := by
  decide

/-- C9 amended: the login endpoints perform no presence validation (there is
no dedicated 400 missing-field branch): a request with a missing username is
processed as a credential lookup that finds no row and is answered exactly
like a nonexistent username (legacy: 400 user-not-found; cookie: generic
401); but a request with an existing username and a missing password reaches
`bcrypt.compare`, which rejects on the undefined password, and the catch
answers the 500 server-error response (legacy JSON body, cookie plain text)
— not the wrong-password response. -/
theorem c9_login_no_presence_validation (db : DB) (g u : String) (usr : User)
    (p q pw : Option String)
    (hg : db.users.find? (fun x => x.username == g) = none)
    (hu : db.users.find? (fun x => x.username == u) = some usr) :
    loginLegacy db none p = respUserNotFound ∧
    loginLegacy db none p = loginLegacy db (some g) q ∧
    loginLegacy db (some u) none = resp500 ∧
    loginCookie db none pw = CookieRes.err 401 invalidCredMsg ∧
    loginCookie db (some u) none = CookieRes.err 500 serverErrMsg := by
  have hfg : findByUsername db (some g) = none := hg
  have hfu : findByUsername db (some u) = some usr := hu
  refine ⟨rfl, ?_, ?_, rfl, ?_⟩
  · have hgq : loginLegacy db (some g) q = respUserNotFound := by
      unfold loginLegacy
      rw [hfg]
    exact hgq.symm
  · unfold loginLegacy
    rw [hfu]
  · unfold loginCookie
    rw [hfu]

/-- Witness for `c9_login_no_presence_validation`. -/
theorem c9_login_no_presence_validation_witness :
    loginLegacy dbAlice none none = respUserNotFound ∧
    loginLegacy dbAlice none none = loginLegacy dbAlice (some "bob") none ∧
    loginLegacy dbAlice (some "alice") none = resp500 ∧
    loginCookie dbAlice none none = CookieRes.err 401 invalidCredMsg ∧
    loginCookie dbAlice (some "alice") none = CookieRes.err 500 serverErrMsg :=
  c9_login_no_presence_validation dbAlice "bob" "alice"
    ⟨1, "alice", bhash "correct"⟩ none none none (by decide) (by decide)

/-- C10: for a `GET /image` request whose URL parses, is https and is on the
host allow-list, if every upstream fetch attempt fails then the endpoint
answers status 200 with the placeholder SVG (`image/svg+xml`), never a
4xx/5xx error. -/
theorem c10_image_fallback (parse : String → Option UrlParts)
    (fetchTrial : Nat → FetchOutcome) (raw : String) (u : UrlParts)
    (hraw : raw.isEmpty = false) (hp : parse raw = some u)
    (hhttps : u.protocol = "https:") (hhost : isAllowedHost u.hostname = true)
    (hfail : ∀ i, (fetchTrial i).isOk = false) :
    (imageHandler parse fetchTrial raw).status = 200 ∧
    (imageHandler parse fetchTrial raw).contentType = some svgContentType ∧
    ∃ ls, (imageHandler parse fetchTrial raw).body = ImgBody.svgPlaceholder ls := by
  have heq : imageHandler parse fetchTrial raw = runTrials fetchTrial [0, 1, 2] 0 := by
    simp [imageHandler, hraw, hp, hhttps, hhost]
  rw [heq]
  exact runTrials_all_fail fetchTrial [0, 1, 2] 0 hfail

def parseG : String → Option UrlParts := fun _ => some ⟨"https:", "googleusercontent.com"⟩

def fetch404 : Nat → FetchOutcome := fun _ => FetchOutcome.errStatus 404 "denied"

/-- Witness for `c10_image_fallback`: a request whose URL parses to an
allow-listed https host and whose upstream attempts all answer 404 yields
the 200 SVG placeholder. -/
theorem c10_image_fallback_witness :
    (imageHandler parseG fetch404 "u").status = 200 ∧
    (imageHandler parseG fetch404 "u").contentType
      = some svgContentType ∧
    ∃ ls, (imageHandler parseG fetch404 "u").body
      = ImgBody.svgPlaceholder ls :=
  c10_image_fallback parseG fetch404 "u"
    ⟨"https:", "googleusercontent.com"⟩ (by decide) rfl rfl (by decide) (fun _ => rfl)
